import Mathlib

/-!
Shallow embedding of the canigolftoday scoring and aggregation pipeline.

The scorer is translated from `src/lib/golfability.ts`; the forecast
pipeline (blocks, daylight, tee windows, daily aggregation, ground
signals) from the route implementation in `src/unnamed/part_002`.

Modelling conventions:
* JS numbers are modelled as exact rationals (`ℚ`); quantities the source
  rounds to integers (`Math.round`) are modelled as `ℤ`.
* `Math.round` is `jsRound q = ⌊q + 1/2⌋` (JS rounds halves toward +∞).
* The scorer's accumulator starts at 100 and only ever subtracts integer
  penalty constants, so it is integer-valued throughout and the source's
  final `Math.round` is the identity; we keep the accumulator in `ℤ`.
* ISO date keys (`toISOString().split("T")[0]`) are modelled by the local
  day number `(dt + tz) / 86400 : ℤ`: two instants get equal date strings
  iff they get equal day numbers, and the lexicographic order on the date
  strings agrees with the numeric order on day numbers.
* Presentation-only display strings (time labels, weekday labels, and the
  `label`/`detail` texts of the ground signals) are elided from the
  embedded records; the `reason` strings of golf scores are kept verbatim.
* The scorer's penalty-path return value also carries a `season` field in
  the source; no consumer or claim reads it, so `GolfScore` keeps the
  `score`/`verdict`/`reason` triple common to every return path.
-/

namespace CanIGolfToday

/-- Three-tier verdict, mirroring the `GolfVerdict` union type. -/
inductive Verdict
  | GREEN
  | YELLOW
  | RED
deriving DecidableEq

/-- The `Season` union type of `src/lib/golfability.ts`. -/
inductive Season
  | WINTER
  | SHOULDER
  | SUMMER
deriving DecidableEq

/-- Result of `golfabilityScore`: score, verdict and human-readable reason. -/
structure GolfScore where
  score : ℤ
  verdict : Verdict
  reason : String
deriving DecidableEq

/-- The options record taken by `golfabilityScore`. The source's optional
fields default at destructuring time (`gustKph = 0`, `precipMm = 0`,
`hasAlert = false`, `conditions = null`, `lat = null`, `month = null`);
callers either supply a value or the default, so plain fields quantifying
over all values cover every call. -/
structure GolfInput where
  tempC : ℚ
  feelsLikeC : ℚ
  windKph : ℚ
  gustKph : ℚ
  pop : ℚ
  precipMm : ℚ
  hasAlert : Bool
  conditions : Option String
  lat : Option ℚ
  month : Option ℤ
deriving DecidableEq

/-- Does `pat` occur at the head of `s`? (helper for substring search). -/
def charsMatchHere : List Char → List Char → Bool
  | [], _ => true
  | _ :: _, [] => false
  | p :: ps, c :: cs => p == c && charsMatchHere ps cs

/-- Does `pat` occur anywhere in the character list? -/
def containsChars (pat : List Char) : List Char → Bool
  | [] => charsMatchHere pat []
  | c :: cs => charsMatchHere pat (c :: cs) || containsChars pat cs

/-- Case-insensitive literal substring test: the meaning of
`/pat/i.test(s)` for the alphabetic literal patterns `snow` and
`thunderstorm` used by the scorer. -/
def testCI (pat s : String) : Bool :=
  containsChars (pat.data.map Char.toLower) (s.data.map Char.toLower)

/-- `conditions ? /thunderstorm/i.test(conditions) : false`. A `null`
condition string yields `false`; the empty string is falsy in JS but the
regex would not match it anyway, so mapping `some ""` through the test is
equivalent. -/
def stormMatch : Option String → Bool
  | some s => testCI "thunderstorm" s
  | none => false

/-- `conditions ? /snow/i.test(conditions) : false`. -/
def snowMatch : Option String → Bool
  | some s => testCI "snow" s
  | none => false

/-- `inferSeason` from `src/lib/golfability.ts`: hemisphere-aware
meteorological season from latitude and 0-based month. -/
def inferSeason (lat : Option ℚ) (month : Option ℤ) : Season :=
  match month with
  | none => Season.SHOULDER
  | some m =>
    let northern : Bool :=
      match lat with
      | none => true
      | some l => decide (0 ≤ l)
    if northern then
      if m = 11 ∨ m = 0 ∨ m = 1 then Season.WINTER
      else if m = 5 ∨ m = 6 ∨ m = 7 then Season.SUMMER
      else Season.SHOULDER
    else
      if m = 5 ∨ m = 6 ∨ m = 7 then Season.WINTER
      else if m = 11 ∨ m = 0 ∨ m = 1 then Season.SUMMER
      else Season.SHOULDER

/-- Precipitation-probability penalty band (`pop >= 0.8` → 40, …). -/
def popPenalty (pop : ℚ) : ℤ :=
  if 4/5 ≤ pop then 40
  else if 3/5 ≤ pop then 30
  else if 2/5 ≤ pop then 18
  else if 1/5 ≤ pop then 8
  else 0

/-- Precipitation-amount penalty band (`precipMm >= 5` → 12, `>= 1` → 6). -/
def precipPenalty (mm : ℚ) : ℤ :=
  if 5 ≤ mm then 12
  else if 1 ≤ mm then 6
  else 0

/-- Wind penalty band on the effective wind (50/40/30/20/15 km/h). -/
def windPenalty (w : ℚ) : ℤ :=
  if 50 ≤ w then 28
  else if 40 ≤ w then 22
  else if 30 ≤ w then 14
  else if 20 ≤ w then 8
  else if 15 ≤ w then 3
  else 0

/-- Feels-like temperature penalty band; the source reads
`const t = feelsLikeC ?? tempC` but `feelsLikeC` is a destructured
number and never nullish, so `t` is always the feels-like value. -/
def tempPenalty (season : Season) (t : ℚ) : ℤ :=
  if t < 0 then (if season = Season.SUMMER then 35 else 40)
  else if t < 5 then (if season = Season.SUMMER then 25 else 30)
  else if t < 10 then 10
  else if 32 < t then 18
  else 0

/-- Fixed reason phrase keyed to the verdict on the penalty path. -/
def reasonFor : Verdict → String
  | Verdict.GREEN => "Great golf weather"
  | Verdict.YELLOW => "Playable, but not perfect"
  | Verdict.RED => "Not really golf weather"

/-- `golfabilityScore` from `src/lib/golfability.ts`: hard stops in source
order (alert, thunderstorm, absolute cold at −2 °C, snow, winter clamp at
5 °C), then the 100-minus-penalties path clamped to [0, 100].
`0.8 = 4/5` is the gust weighting, `3.6` km/h per m/s appears only in the
route's unit conversion. -/
def golfabilityScore (o : GolfInput) : GolfScore :=
  if o.hasAlert then ⟨0, Verdict.RED, "Weather alert in effect"⟩
  else if stormMatch o.conditions then ⟨0, Verdict.RED, "Thunderstorms — hard no"⟩
  else if o.feelsLikeC ≤ -2 then ⟨10, Verdict.RED, "Too cold to be playable"⟩
  else if snowMatch o.conditions then ⟨15, Verdict.RED, "Snowing / winter conditions"⟩
  else if inferSeason o.lat o.month = Season.WINTER ∧ o.feelsLikeC < 5 then
    ⟨25, Verdict.RED, "Winter conditions — not golf weather"⟩
  else
    let raw : ℤ :=
      100 - popPenalty o.pop - precipPenalty o.precipMm
        - windPenalty (max o.windKph (o.gustKph * (4/5)))
        - tempPenalty (inferSeason o.lat o.month) o.feelsLikeC
    let score : ℤ := max 0 (min 100 raw)
    let verdict : Verdict :=
      if score < 55 then Verdict.RED
      else if score < 80 then Verdict.YELLOW
      else Verdict.GREEN
    ⟨score, verdict, reasonFor verdict⟩

/-! Concrete inputs used by witnesses and counterexamples. -/

/-- Alert flag set together with a thunderstorm condition string. -/
def alertStormInput : GolfInput :=
  ⟨20, 20, 5, 5, 0, 0, true, some "Thunderstorm", some 45, some 6⟩

/-- Feels-like −5 °C and "Clear", but with the alert flag also set. -/
def coldAlertInput : GolfInput :=
  ⟨0, -5, 0, 0, 0, 0, true, some "Clear", none, none⟩

/-- Feels-like just above the −2 °C floor with every penalty band maxed:
pop 0.8 (−40), 5 mm (−12), 50 km/h (−28), sub-zero shoulder (−40). -/
def stormyColdInput : GolfInput :=
  ⟨-1, -1, 50, 0, 0.8, 5, false, none, none, none⟩

/-- A mild shoulder-season reading (month 3 = April, no latitude). -/
def fairShoulderInput : GolfInput :=
  ⟨12, 12, 10, 0, 0, 0, false, some "Clouds", none, some 3⟩

/-! Forecast pipeline embedding, from the route in `src/unnamed/part_002`. -/

/-- `msToKph`: OpenWeather wind speeds arrive in m/s; `3.6 = 18/5`. -/
def msToKph (ms : ℚ) : ℚ := ms * (18/5)

/-- JS `Math.round`: halves round toward +∞, so `⌊q + 1/2⌋` (via the
computable `Rat.floor`). -/
def jsRound (q : ℚ) : ℤ := Rat.floor (q + 1/2)

/-- `Math.round(n * 10) / 10` — round to one decimal place. -/
def round1 (q : ℚ) : ℚ := (jsRound (q * 10) : ℚ) / 10

/-- `dayKey(dt, tz)`: the location-local calendar day of a unix timestamp,
as a day number (see the header note on ISO date keys). `Int` division is
Euclidean, which agrees with the floor used by `Date` for the positive
divisor 86400. -/
def dayKeyOf (dt tz : ℤ) : ℤ := (dt + tz) / 86400

/-- `localHour(dt, tz)`: `getUTCHours()` of the shifted instant. -/
def localHour (dt tz : ℤ) : ℤ := ((dt + tz) / 3600) % 24

/-- Confidence tag of a ground signal. -/
inductive Confidence
  | LOW
  | MEDIUM
  | HIGH
deriving DecidableEq

/-- Greens-speed classification key. -/
inductive GreensKey
  | SLOW
  | MEDIUM
  | QUICK
deriving DecidableEq

/-- Fairway-rollout classification key. -/
inductive RolloutKey
  | LOW
  | MEDIUM
  | HIGH
deriving DecidableEq

/-- `greensSpeed` component (display `label`/`detail` strings elided). -/
structure GreensSpeedSignal where
  key : GreensKey
  confidence : Confidence
deriving DecidableEq

/-- `fairwayRollout` component (display strings elided). -/
structure RolloutSignal where
  key : RolloutKey
  confidence : Confidence
deriving DecidableEq

/-- The `GroundSignals` record of the route. -/
structure GroundSignals where
  past24hPrecipMm : Option ℚ
  past48hPrecipMm : Option ℚ
  forecast48hWetnessMm : Option ℚ
  greensSpeed : GreensSpeedSignal
  fairwayRollout : RolloutSignal
deriving DecidableEq

/-- A scored `ForecastBlock`. The source stores `temp`, `feels`,
`windKph`, `gustKph` already passed through `Math.round`, hence `ℤ`;
`label`/`dayLabel` display strings are elided, and the string `dayKey` is
the local day number. -/
structure ForecastBlock where
  dt : ℤ
  dayKey : ℤ
  temp : ℤ
  feels : ℤ
  windKph : ℤ
  gustKph : ℤ
  precipMm : ℚ
  conditions : Option String
  inDaylight : Bool
  golf : GolfScore
deriving DecidableEq

/-- `arr.length ? arr.reduce((a, b) => a + b, 0) / arr.length : 0`. -/
def avgList (l : List ℚ) : ℚ := if l.length = 0 then 0 else l.sum / l.length

/-- `computeGroundSignals` (measured-history mode): drying proxy from the
day's daylight blocks (or all blocks when none are in daylight), then the
greens-speed and rollout classification; confidence is LOW exactly when
`past48` is unavailable. -/
def computeGroundSignals (past24 past48 : Option ℚ)
    (todayBlocks : List ForecastBlock) : GroundSignals :=
  let daylight := todayBlocks.filter (fun b => b.inDaylight)
  let src := if 0 < daylight.length then daylight else todayBlocks
  let avgTemp : ℤ := jsRound (avgList (src.map (fun b => (b.temp : ℚ))))
  let avgWind : ℤ := jsRound (avgList (src.map (fun b => (b.windKph : ℚ))))
  let heat : ℚ := max 0 (min (3/2) (((avgTemp : ℚ) - 8) / 12))
  let wind : ℚ := max 0 (min 1 (((avgWind : ℚ) - 5) / 20))
  let drying : ℚ := heat + wind
  let greens : GreensSpeedSignal :=
    match past48 with
    | none => ⟨GreensKey.MEDIUM, Confidence.LOW⟩
    | some p48 =>
      if 10 ≤ p48 ∧ drying < 1 then ⟨GreensKey.SLOW, Confidence.MEDIUM⟩
      else if 6 ≤ p48 ∧ drying < 4/5 then ⟨GreensKey.SLOW, Confidence.MEDIUM⟩
      else if p48 ≤ 2 ∧ 14 ≤ avgTemp ∧ 1 ≤ drying then ⟨GreensKey.QUICK, Confidence.MEDIUM⟩
      else ⟨GreensKey.MEDIUM, Confidence.MEDIUM⟩
  let rollout : RolloutSignal :=
    match past48 with
    | none => ⟨RolloutKey.MEDIUM, Confidence.LOW⟩
    | some p48 =>
      if 12 ≤ p48 then ⟨RolloutKey.LOW, Confidence.MEDIUM⟩
      else if p48 ≤ 2 ∧ 10 ≤ avgTemp ∧ 1 ≤ drying then ⟨RolloutKey.HIGH, Confidence.MEDIUM⟩
      else ⟨RolloutKey.MEDIUM, Confidence.MEDIUM⟩
  { past24hPrecipMm := past24
    past48hPrecipMm := past48
    forecast48hWetnessMm := none
    greensSpeed := greens
    fairwayRollout := rollout }

/-- `computeForecastGroundSignals` (forecast-wetness-proxy mode): same
drying proxy, narrower rule set, and both confidences pinned to LOW. -/
def computeForecastGroundSignals (wetness48hMm : ℚ)
    (dayBlocks : List ForecastBlock) : GroundSignals :=
  let daylight := dayBlocks.filter (fun b => b.inDaylight)
  let src := if 0 < daylight.length then daylight else dayBlocks
  let avgTemp : ℤ := jsRound (avgList (src.map (fun b => (b.temp : ℚ))))
  let avgWind : ℤ := jsRound (avgList (src.map (fun b => (b.windKph : ℚ))))
  let heat : ℚ := max 0 (min (3/2) (((avgTemp : ℚ) - 8) / 12))
  let wind : ℚ := max 0 (min 1 (((avgWind : ℚ) - 5) / 20))
  let drying : ℚ := heat + wind
  let greens : GreensSpeedSignal :=
    if 10 ≤ wetness48hMm ∧ drying < 1 then ⟨GreensKey.SLOW, Confidence.LOW⟩
    else if wetness48hMm ≤ 2 ∧ 14 ≤ avgTemp ∧ 1 ≤ drying then ⟨GreensKey.QUICK, Confidence.LOW⟩
    else ⟨GreensKey.MEDIUM, Confidence.LOW⟩
  let rollout : RolloutSignal :=
    if 12 ≤ wetness48hMm then ⟨RolloutKey.LOW, Confidence.LOW⟩
    else if wetness48hMm ≤ 2 ∧ 10 ≤ avgTemp ∧ 1 ≤ drying then ⟨RolloutKey.HIGH, Confidence.LOW⟩
    else ⟨RolloutKey.MEDIUM, Confidence.LOW⟩
  { past24hPrecipMm := none
    past48hPrecipMm := none
    forecast48hWetnessMm := some (round1 wetness48hMm)
    greensSpeed := greens
    fairwayRollout := rollout }

/-- Request-scoped context: latitude, the location's UTC offset, today's
sunrise/sunset, the clock (`Date.now() / 1000`, sub-second part dropped)
and the location-local current month. The source derives `nowMonth` from
the shifted clock via `getUTCMonth()`; calendar month extraction is not
otherwise needed, so the month is threaded as data. -/
structure LocationCtx where
  lat : ℚ
  tzOffsetSec : ℤ
  sunrise : ℤ
  sunset : ℤ
  nowSec : ℤ
  nowMonth : ℤ
deriving DecidableEq

/-- One entry of the provider's `forecast.list`, after the boundary
parsing the route performs with optional chaining: absent wind, gust and
rain/snow fields read as 0 via `?? 0`, the condition text may be absent. -/
structure RawForecastItem where
  dt : ℤ
  temp : ℚ
  feelsLike : ℚ
  windSpeed : Option ℚ
  windGust : Option ℚ
  rain3h : Option ℚ
  snow3h : Option ℚ
  weatherMain : Option String
deriving DecidableEq

/-- `daylightStart = sunrise + 60 * 60`. -/
def daylightStartOf (ctx : LocationCtx) : ℤ := ctx.sunrise + 3600

/-- `daylightEnd = sunset - 60 * 60`. -/
def daylightEndOf (ctx : LocationCtx) : ℤ := ctx.sunset - 3600

/-- `latestStart = daylightEnd - WINDOW_SEC` with `WINDOW_SEC = 3 * 60 * 60`. -/
def latestStartOf (ctx : LocationCtx) : ℤ := daylightEndOf ctx - 10800

/-- The per-item body of the `blocks` map: unit conversion, precipitation
rounding, the pop proxy (`0.7` when measurable precipitation, else `0.1`),
the scorer call (alert always false here), and the daylight flag. -/
def mkBlock (ctx : LocationCtx) (b : RawForecastItem) : ForecastBlock :=
  let wind := msToKph (b.windSpeed.getD 0)
  let gust := msToKph (b.windGust.getD 0)
  let precipRaw := b.rain3h.getD 0 + b.snow3h.getD 0
  let precipMm := round1 precipRaw
  let golf := golfabilityScore
    { tempC := b.temp
      feelsLikeC := b.feelsLike
      windKph := wind
      gustKph := gust
      pop := if 0 < precipMm then 7/10 else 1/10
      precipMm := precipMm
      hasAlert := false
      conditions := b.weatherMain
      lat := some ctx.lat
      month := some ctx.nowMonth }
  { dt := b.dt
    dayKey := dayKeyOf b.dt ctx.tzOffsetSec
    temp := jsRound b.temp
    feels := jsRound b.feelsLike
    windKph := jsRound wind
    gustKph := jsRound gust
    precipMm := precipMm
    conditions := b.weatherMain
    inDaylight := decide (daylightStartOf ctx ≤ b.dt ∧ b.dt ≤ daylightEndOf ctx)
    golf := golf }

/-- A best 3-hour tee window (display labels elided). -/
structure TeeWindow where
  startDt : ℤ
  endDt : ℤ
  avgScore : ℤ
deriving DecidableEq

/-- The reducer body `(a, b) => (b.golf.score > a.golf.score ? b : a)`. -/
def pickBetter (a b : ForecastBlock) : ForecastBlock :=
  if a.golf.score < b.golf.score then b else a

/-- `list.reduce(pickBetter)` — `none` on an empty list, else the
left-to-right maximum with first-occurrence tie-breaking. -/
def bestBy : List ForecastBlock → Option ForecastBlock
  | [] => none
  | h :: t => some (t.foldl pickBetter h)

/-- `isInTeeWindow`: local start hour between 6 am and 3 pm inclusive. -/
def isInTeeWindow (ctx : LocationCtx) (dt : ℤ) : Bool :=
  decide (6 ≤ localHour dt ctx.tzOffsetSec ∧ localHour dt ctx.tzOffsetSec ≤ 15)

/-- Build the 3-hour window record from its start block. -/
def windowOf (b : ForecastBlock) : TeeWindow := ⟨b.dt, b.dt + 10800, b.golf.score⟩

/-- One step of the grouping loop: a new day key is appended at the end,
an already-seen key leaves the insertion-ordered key list unchanged
(string keys of a JS object enumerate in insertion order). -/
def insertKey (acc : List ℤ) (k : ℤ) : List ℤ := if k ∈ acc then acc else acc ++ [k]

/-- `Object.keys(grouped)` for the day grouping: day keys in order of
first appearance. -/
def dayKeysOf (l : List ℤ) : List ℤ := l.foldl insertKey []

/-- The reducer body that finds the block whose local hour is closest to
noon (strictly closer wins, so the earliest minimiser is kept). -/
def noonPick (ctx : LocationCtx) (best : Option (ForecastBlock × ℤ)) (b : ForecastBlock) :
    Option (ForecastBlock × ℤ) :=
  let dist := |localHour b.dt ctx.tzOffsetSec - 12|
  match best with
  | none => some (b, dist)
  | some (b0, d0) => if dist < d0 then some (b, dist) else some (b0, d0)

/-- The day's noon block (absent only for an empty day). -/
def noonBlockOf (ctx : LocationCtx) (dayBlocks : List ForecastBlock) : Option ForecastBlock :=
  (dayBlocks.foldl (noonPick ctx) none).map Prod.fst

/-- Day-level reason phrase. -/
def dayReasonFor : Verdict → String
  | Verdict.GREEN => "Great golf day"
  | Verdict.YELLOW => "Playable, not perfect"
  | Verdict.RED => "Not golfable"

/-- One entry of the `daily` list. The purely presentational aggregates
(`minTemp`, `maxTemp`, `windMax`, `gustMax`, `dayLabel`, representative
`conditions`, and the re-mapped `blocks` array) are elided; the fields the
claims are about — date key, day-level golf score, ground signals and the
best window — are kept. -/
structure DailySummary where
  dateKey : ℤ
  precipTotalMm : ℚ
  golf : GolfScore
  ground : GroundSignals
  bestWindow : Option TeeWindow
deriving DecidableEq

/-- `dayBlocks = grouped[key]`: the blocks of one local day, in order. -/
def dayBlocksOf (blocks : List ForecastBlock) (key : ℤ) : List ForecastBlock :=
  blocks.filter (fun b => decide (b.dayKey = key))

/-- `scoreBlocks`: the day's daylight blocks, or all of them when none
are flagged in daylight. -/
def scoreBlocksOf (blocks : List ForecastBlock) (key : ℤ) : List ForecastBlock :=
  let dayDaylight := (dayBlocksOf blocks key).filter (fun b => b.inDaylight)
  if 0 < dayDaylight.length then dayDaylight else dayBlocksOf blocks key

/-- `avg`: rounded mean block score of the daylight-preferred pool. -/
def dayAvgOf (blocks : List ForecastBlock) (key : ℤ) : ℤ :=
  if 0 < (scoreBlocksOf blocks key).length then
    jsRound (((scoreBlocksOf blocks key).map (fun b => (b.golf.score : ℚ))).sum /
      (scoreBlocksOf blocks key).length)
  else 0

/-- The day verdict from the mean score (thresholds 80 / 55). -/
def dayVerdictOf (blocks : List ForecastBlock) (key : ℤ) : Verdict :=
  if 80 ≤ dayAvgOf blocks key then Verdict.GREEN
  else if 55 ≤ dayAvgOf blocks key then Verdict.YELLOW
  else Verdict.RED

/-- `teeBlocks`: pool blocks whose local hour is within 6 am–3 pm (the
daily path applies no `latestStart` clamp). -/
def teeBlocksOf (ctx : LocationCtx) (blocks : List ForecastBlock) (key : ℤ) :
    List ForecastBlock :=
  (scoreBlocksOf blocks key).filter (fun b => isInTeeWindow ctx b.dt)

/-- The body of the `daily` map for one day key: day-mean score over the
daylight-preferred pool, verdict thresholds 80/55, tee blocks filtered by
`isInTeeWindow` only (no `latestStart` clamp here), the forecast-wetness
proxy over the 48 h before the noon block, ground signal selection, and
the RED-day suppression of `bestWindow`. -/
def mkDaily (ctx : LocationCtx) (blocks : List ForecastBlock) (ground : GroundSignals)
    (todayKey : ℤ) (key : ℤ) : DailySummary :=
  let dayBlocks := dayBlocksOf blocks key
  let avg : ℤ := dayAvgOf blocks key
  let verdict : Verdict := dayVerdictOf blocks key
  let dayBestWindow := (bestBy (teeBlocksOf ctx blocks key)).map windowOf
  let noonDt : Option ℤ :=
    ((noonBlockOf ctx dayBlocks).map ForecastBlock.dt).orElse fun _ =>
      (((dayBlocks.get? (dayBlocks.length / 2)).map ForecastBlock.dt).orElse fun _ =>
        (dayBlocks.head?).map ForecastBlock.dt)
  let wetness48hForecastMm : ℚ :=
    match noonDt with
    | none => 0
    | some endDt =>
      ((blocks.filter (fun b => decide (endDt - 172800 ≤ b.dt ∧ b.dt < endDt))).map
        ForecastBlock.precipMm).sum
  let dayGround :=
    if key = todayKey then ground
    else computeForecastGroundSignals wetness48hForecastMm dayBlocks
  { dateKey := key
    precipTotalMm := round1 ((dayBlocks.map ForecastBlock.precipMm).sum)
    golf := ⟨avg, verdict, dayReasonFor verdict⟩
    ground := dayGround
    bestWindow := if verdict = Verdict.RED then none else dayBestWindow }

/-- The fields of the route's JSON response that the core computes from
the forecast list (the `current` echo of the other provider call and the
presentation-only `daylight` labels are elided). -/
structure ApiResult where
  golf : Option GolfScore
  bestBlock : Option ForecastBlock
  bestWindow : Option TeeWindow
  forecast : List ForecastBlock
  daily : List DailySummary
  ground : GroundSignals
deriving DecidableEq

/-- The route's pipeline after parsing: score the first 40 forecast items,
compute today's pools and ground signals, pick today's best tee block
under the hour window and the `latestStart` sunset clamp, group the blocks
into the first five local day keys, and build the daily summaries.
`past24`/`past48` are the measured trailing precipitation totals from the
secondary provider (`none` when that fetch failed or returned nothing). -/
def buildResponse (ctx : LocationCtx) (raw : List RawForecastItem)
    (past24 past48 : Option ℚ) : ApiResult :=
  let blocks := (raw.take 40).map (mkBlock ctx)
  let todayKey := dayKeyOf ctx.nowSec ctx.tzOffsetSec
  let todayAll := blocks.filter (fun b => decide (b.dayKey = todayKey))
  let todayDaylight := todayAll.filter (fun b => b.inDaylight)
  let ground := computeGroundSignals past24 past48 todayAll
  let todayTeeBlocks :=
    (if 0 < todayDaylight.length then todayDaylight else todayAll).filter
      (fun b => isInTeeWindow ctx b.dt && decide (b.dt ≤ latestStartOf ctx))
  let bestTodayBlock := bestBy todayTeeBlocks
  let dayKeys := (dayKeysOf (blocks.map ForecastBlock.dayKey)).take 5
  let daily := dayKeys.map (mkDaily ctx blocks ground todayKey)
  { golf := bestTodayBlock.map ForecastBlock.golf
    bestBlock := bestTodayBlock
    bestWindow := bestTodayBlock.map windowOf
    forecast := blocks
    daily := daily
    ground := ground }

/-! Concrete pipeline inputs used by witnesses and counterexamples.
All use UTC offset 0 so local hours can be read off the timestamps. -/

/-- Sunrise 06:00, sunset 17:00 (early dusk): `latestStart` is 13:00. -/
def ctxShortDay : LocationCtx := ⟨45, 0, 21600, 61200, 1000, 6⟩

/-- A clear, calm 14:00-local block on day 0. -/
def rawAfternoonClear : RawForecastItem := ⟨50400, 20, 20, some 0, some 0, none, none, some "Clear"⟩

/-- Sunrise 06:00, sunset 20:00: `latestStart` is 16:00. -/
def ctxLongDay : LocationCtx := ⟨45, 0, 21600, 72000, 1000, 6⟩

/-- A clear, calm 10:00-local block on day 0. -/
def rawMorningClear : RawForecastItem := ⟨36000, 20, 20, some 0, some 0, none, none, some "Clear"⟩

/-- Thunderstorm block at 09:00 local. -/
def rawStormEarly : RawForecastItem := ⟨32400, 20, 20, some 0, some 0, none, none, some "Thunderstorm"⟩

/-- Clear block at 12:00 local (scores 100). -/
def rawClearNoon : RawForecastItem := ⟨43200, 20, 20, some 0, some 0, none, none, some "Clear"⟩

/-- Thunderstorm block at 15:00 local. -/
def rawStormLate : RawForecastItem := ⟨54000, 20, 20, some 0, some 0, none, none, some "Thunderstorm"⟩

/-- Clock at the very start of local day 0. -/
def ctxDayZero : LocationCtx := ⟨45, 0, 21600, 61200, 0, 6⟩

/-- A clear block entirely on local day 1. -/
def rawNextDay : RawForecastItem := ⟨90000, 20, 20, some 0, some 0, none, none, some "Clear"⟩

/-- A clear block on local day 2. -/
def rawDayAfter : RawForecastItem := ⟨180000, 20, 20, some 0, some 0, none, none, some "Clear"⟩

instance : Inhabited DailySummary :=
  ⟨⟨0, 0, ⟨0, Verdict.RED, ""⟩,
    ⟨none, none, none, ⟨GreensKey.MEDIUM, Confidence.LOW⟩,
      ⟨RolloutKey.MEDIUM, Confidence.LOW⟩⟩, none⟩⟩

/-- The (single) daily entry of the short-day afternoon run: its tee
window starts at 14:00, after `latestStart`. -/
def shortDaySummary : DailySummary :=
  ((buildResponse ctxShortDay [rawAfternoonClear] none none).daily).headI

/-- The (single) daily entry of the stormy long-day run: RED with a
100-scoring noon block in its pool. -/
def stormyDaySummary : DailySummary :=
  ((buildResponse ctxLongDay [rawStormEarly, rawClearNoon, rawStormLate] none none).daily).headI

/-! Helper lemmas about the scorer. -/

/-- The feels-like penalty never decreases as the temperature drops, as
long as the upper reading stays at or below the 32 °C heat boundary. -/
theorem tempPenalty_anti {s : Season} {t1 t2 : ℚ} (h12 : t1 ≤ t2) (h2 : t2 ≤ 32) :
    tempPenalty s t2 ≤ tempPenalty s t1 := by
  unfold tempPenalty
  split_ifs <;> first | omega | linarith

/-- The wind penalty is monotone in the effective wind. -/
theorem windPenalty_mono {w1 w2 : ℚ} (h : w1 ≤ w2) : windPenalty w1 ≤ windPenalty w2 := by
  unfold windPenalty
  split_ifs <;> first | omega | linarith

/-- Alert hard stop. -/
theorem golfability_alert {o : GolfInput} (hA : o.hasAlert = true) :
    golfabilityScore o = ⟨0, Verdict.RED, "Weather alert in effect"⟩ := by
  simp [golfabilityScore, hA]

/-- Thunderstorm hard stop. -/
theorem golfability_storm {o : GolfInput} (hA : o.hasAlert = false)
    (hS : stormMatch o.conditions = true) :
    golfabilityScore o = ⟨0, Verdict.RED, "Thunderstorms — hard no"⟩ := by
  simp [golfabilityScore, hA, hS]

/-- Absolute-cold hard stop. -/
theorem golfability_cold {o : GolfInput} (hA : o.hasAlert = false)
    (hS : stormMatch o.conditions = false) (hc : o.feelsLikeC ≤ -2) :
    golfabilityScore o = ⟨10, Verdict.RED, "Too cold to be playable"⟩ := by
  simp [golfabilityScore, hA, hS, hc]

/-- Snow hard stop. -/
theorem golfability_snow {o : GolfInput} (hA : o.hasAlert = false)
    (hS : stormMatch o.conditions = false) (hc : ¬ o.feelsLikeC ≤ -2)
    (hSn : snowMatch o.conditions = true) :
    golfabilityScore o = ⟨15, Verdict.RED, "Snowing / winter conditions"⟩ := by
  simp [golfabilityScore, hA, hS, hc, hSn]

/-- Winter-clamp hard stop. -/
theorem golfability_winter {o : GolfInput} (hA : o.hasAlert = false)
    (hS : stormMatch o.conditions = false) (hc : ¬ o.feelsLikeC ≤ -2)
    (hSn : snowMatch o.conditions = false)
    (hW : inferSeason o.lat o.month = Season.WINTER ∧ o.feelsLikeC < 5) :
    golfabilityScore o = ⟨25, Verdict.RED, "Winter conditions — not golf weather"⟩ := by
  simp [golfabilityScore, hA, hS, hc, hSn, hW]

/-- On the penalty path the score is the clamped 100-minus-penalties sum. -/
theorem golfability_penalty_path {o : GolfInput} (hA : o.hasAlert = false)
    (hS : stormMatch o.conditions = false) (hc : ¬ o.feelsLikeC ≤ -2)
    (hSn : snowMatch o.conditions = false)
    (hW : ¬ (inferSeason o.lat o.month = Season.WINTER ∧ o.feelsLikeC < 5)) :
    (golfabilityScore o).score =
      max 0 (min 100 (100 - popPenalty o.pop - precipPenalty o.precipMm
        - windPenalty (max o.windKph (o.gustKph * (4/5)))
        - tempPenalty (inferSeason o.lat o.month) o.feelsLikeC)) := by
  simp [golfabilityScore, hA, hS, hc, hSn, hW]

/-! Claim theorems about the scorer. -/

/-- Claim C1: for every input to `golfabilityScore` the returned score lies
in [0, 100]. Integrality holds by construction: the score is `ℤ`-valued in
the embedding because the source's accumulator starts at 100, subtracts
only integer penalty constants, and `Math.round` on that integer value is
the identity; each hard-stop path returns an integer literal. -/
theorem C1_score_in_range (o : GolfInput) :
    0 ≤ (golfabilityScore o).score ∧ (golfabilityScore o).score ≤ 100 := by
  unfold golfabilityScore
  split_ifs <;> dsimp only <;> constructor <;> omega

/-- Claim C2: when the alert flag is set and the conditions string matches
the thunderstorm pattern, the alert hard stop fires first and the result
is score 0, RED, "Weather alert in effect" — not the thunderstorm path's
reason. -/
theorem C2_alert_overrides_storm (o : GolfInput) (hA : o.hasAlert = true)
    (hS : stormMatch o.conditions = true) :
    golfabilityScore o = ⟨0, Verdict.RED, "Weather alert in effect"⟩ :=
  golfability_alert hA

/-- Witness for C2 at a concrete thunderstorm-plus-alert reading. -/
theorem C2_alert_overrides_storm_witness :
    alertStormInput.hasAlert = true ∧ stormMatch alertStormInput.conditions = true ∧
      golfabilityScore alertStormInput = ⟨0, Verdict.RED, "Weather alert in effect"⟩ :=
  ⟨rfl, of_decide_eq_true (by with_unfolding_all rfl),
    C2_alert_overrides_storm alertStormInput rfl (of_decide_eq_true (by with_unfolding_all rfl))⟩

/-- Counterexample to claim C5 as stated: the claim includes the hard-stop
floors among the boundaries across which lowering the feels-like value may
never raise the score, but crossing the −2 °C floor can raise it. At
`stormyColdInput` (feels-like −1 °C, every penalty band maxed) the clamped
penalty path yields 0, while lowering the feels-like value to −3 °C takes
the absolute-cold hard stop, which yields 10. -/
theorem C5_counterexample :
    ((-3 : ℚ) < stormyColdInput.feelsLikeC) ∧
      (golfabilityScore stormyColdInput).score <
        (golfabilityScore { stormyColdInput with feelsLikeC := -3 }).score :=
  of_decide_eq_true (by with_unfolding_all rfl)

/-- Claim C5, amended: effective-wind monotonicity holds unconditionally —
any change of the sustained wind and gust that does not decrease the
effective wind `max(windKph, 0.8 * gustKph)` never raises the score (this
covers raising either knob alone) — and temperature monotonicity holds
across the 10/5/0 °C penalty boundaries as long as both readings stay
strictly above the −2 °C hard-stop floor, at or below 32 °C, and do not
straddle the winter clamp at 5 °C; crossing a hard-stop floor can raise
the score (see the counterexample). -/
theorem C5_amended :
    (∀ (o : GolfInput) (t1 t2 : ℚ), t1 ≤ t2 → t2 ≤ 32 → -2 < t1 →
        (inferSeason o.lat o.month = Season.WINTER → 5 ≤ t1 ∨ t2 < 5) →
        (golfabilityScore { o with feelsLikeC := t1 }).score ≤
          (golfabilityScore { o with feelsLikeC := t2 }).score) ∧
    (∀ (o : GolfInput) (w1 g1 w2 g2 : ℚ),
        max w1 (g1 * (4/5)) ≤ max w2 (g2 * (4/5)) →
        (golfabilityScore { o with windKph := w2, gustKph := g2 }).score ≤
          (golfabilityScore { o with windKph := w1, gustKph := g1 }).score) := by
  constructor
  · intro o t1 t2 h12 h2 hm hw
    have hc1 : ¬ t1 ≤ (-2 : ℚ) := by linarith
    have hc2 : ¬ t2 ≤ (-2 : ℚ) := by linarith
    rcases Bool.eq_false_or_eq_true o.hasAlert with hA | hA
    · exact le_of_eq (by rw [golfability_alert (o := { o with feelsLikeC := t1 }) hA,
        golfability_alert (o := { o with feelsLikeC := t2 }) hA])
    rcases Bool.eq_false_or_eq_true (stormMatch o.conditions) with hS | hS
    · exact le_of_eq (by rw [golfability_storm (o := { o with feelsLikeC := t1 }) hA hS,
        golfability_storm (o := { o with feelsLikeC := t2 }) hA hS])
    rcases Bool.eq_false_or_eq_true (snowMatch o.conditions) with hSn | hSn
    · exact le_of_eq (by rw [golfability_snow (o := { o with feelsLikeC := t1 }) hA hS hc1 hSn,
        golfability_snow (o := { o with feelsLikeC := t2 }) hA hS hc2 hSn])
    by_cases hWin : inferSeason o.lat o.month = Season.WINTER
    · rcases hw hWin with h5 | h5
      · have e1 : ¬ (inferSeason o.lat o.month = Season.WINTER ∧ t1 < 5) := by
          rintro ⟨-, hlt⟩; linarith
        have e2 : ¬ (inferSeason o.lat o.month = Season.WINTER ∧ t2 < 5) := by
          rintro ⟨-, hlt⟩; linarith
        rw [golfability_penalty_path (o := { o with feelsLikeC := t1 }) hA hS hc1 hSn e1,
          golfability_penalty_path (o := { o with feelsLikeC := t2 }) hA hS hc2 hSn e2]
        dsimp only
        have hp := tempPenalty_anti (s := inferSeason o.lat o.month) h12 h2
        exact max_le_max le_rfl (min_le_min le_rfl (by omega))
      · have e1 : inferSeason o.lat o.month = Season.WINTER ∧ t1 < 5 := ⟨hWin, by linarith⟩
        have e2 : inferSeason o.lat o.month = Season.WINTER ∧ t2 < 5 := ⟨hWin, h5⟩
        exact le_of_eq (by rw [golfability_winter (o := { o with feelsLikeC := t1 }) hA hS hc1 hSn e1,
          golfability_winter (o := { o with feelsLikeC := t2 }) hA hS hc2 hSn e2])
    · have e1 : ¬ (inferSeason o.lat o.month = Season.WINTER ∧ t1 < 5) := fun h => hWin h.1
      have e2 : ¬ (inferSeason o.lat o.month = Season.WINTER ∧ t2 < 5) := fun h => hWin h.1
      rw [golfability_penalty_path (o := { o with feelsLikeC := t1 }) hA hS hc1 hSn e1,
        golfability_penalty_path (o := { o with feelsLikeC := t2 }) hA hS hc2 hSn e2]
      dsimp only
      have hp := tempPenalty_anti (s := inferSeason o.lat o.month) h12 h2
      exact max_le_max le_rfl (min_le_min le_rfl (by omega))
  · intro o w1 g1 w2 g2 h
    rcases Bool.eq_false_or_eq_true o.hasAlert with hA | hA
    · exact le_of_eq (by
        rw [golfability_alert (o := { o with windKph := w2, gustKph := g2 }) hA,
          golfability_alert (o := { o with windKph := w1, gustKph := g1 }) hA])
    rcases Bool.eq_false_or_eq_true (stormMatch o.conditions) with hS | hS
    · exact le_of_eq (by
        rw [golfability_storm (o := { o with windKph := w2, gustKph := g2 }) hA hS,
          golfability_storm (o := { o with windKph := w1, gustKph := g1 }) hA hS])
    by_cases hc : o.feelsLikeC ≤ -2
    · exact le_of_eq (by
        rw [golfability_cold (o := { o with windKph := w2, gustKph := g2 }) hA hS hc,
          golfability_cold (o := { o with windKph := w1, gustKph := g1 }) hA hS hc])
    rcases Bool.eq_false_or_eq_true (snowMatch o.conditions) with hSn | hSn
    · exact le_of_eq (by
        rw [golfability_snow (o := { o with windKph := w2, gustKph := g2 }) hA hS hc hSn,
          golfability_snow (o := { o with windKph := w1, gustKph := g1 }) hA hS hc hSn])
    by_cases hW : inferSeason o.lat o.month = Season.WINTER ∧ o.feelsLikeC < 5
    · exact le_of_eq (by
        rw [golfability_winter (o := { o with windKph := w2, gustKph := g2 }) hA hS hc hSn hW,
          golfability_winter (o := { o with windKph := w1, gustKph := g1 }) hA hS hc hSn hW])
    · rw [golfability_penalty_path (o := { o with windKph := w2, gustKph := g2 }) hA hS hc hSn hW,
        golfability_penalty_path (o := { o with windKph := w1, gustKph := g1 }) hA hS hc hSn hW]
      dsimp only
      have hp := windPenalty_mono h
      exact max_le_max le_rfl (min_le_min le_rfl (by omega))

/-- Witness for the amended C5 at concrete readings: feels-like 3 °C vs
8 °C in shoulder season; gust raised 10 → 30 km/h at fixed sustained wind
(effective wind 10 → 24); and sustained wind raised 10 → 20 km/h at zero
gust. -/
theorem C5_amended_witness :
    ((golfabilityScore { fairShoulderInput with feelsLikeC := 3 }).score ≤
        (golfabilityScore { fairShoulderInput with feelsLikeC := 8 }).score) ∧
      ((golfabilityScore { fairShoulderInput with windKph := 10, gustKph := 30 }).score ≤
        (golfabilityScore { fairShoulderInput with windKph := 10, gustKph := 10 }).score) ∧
      ((golfabilityScore { fairShoulderInput with windKph := 20, gustKph := 0 }).score ≤
        (golfabilityScore { fairShoulderInput with windKph := 10, gustKph := 0 }).score) :=
  ⟨C5_amended.1 fairShoulderInput 3 8 (by norm_num) (by norm_num) (by norm_num)
      (of_decide_eq_true (by with_unfolding_all rfl)),
    C5_amended.2 fairShoulderInput 10 10 10 30 (of_decide_eq_true (by with_unfolding_all rfl)),
    C5_amended.2 fairShoulderInput 10 0 20 0 (of_decide_eq_true (by with_unfolding_all rfl))⟩

/-- Counterexample to claim C6 as stated: the claim quantifies over the
alert flag as one of the fields the result is independent of, but with the
flag set the alert hard stop fires before the cold check, returning 0, not
10. -/
theorem C6_counterexample :
    coldAlertInput.feelsLikeC = -5 ∧ coldAlertInput.conditions = some "Clear" ∧
      (golfabilityScore coldAlertInput).score = 0 ∧
      (golfabilityScore coldAlertInput).reason = "Weather alert in effect" :=
  of_decide_eq_true (by with_unfolding_all rfl)

/-- Claim C6, amended: for feels-like −5 °C and conditions "Clear" the
result is score 10, RED, "Too cold to be playable" regardless of every
other field, provided the alert flag is clear (an active alert fires
first; see the counterexample). -/
theorem C6_amended (tempC windKph gustKph pop precipMm : ℚ)
    (lat : Option ℚ) (month : Option ℤ) :
    golfabilityScore ⟨tempC, -5, windKph, gustKph, pop, precipMm, false, some "Clear", lat, month⟩ =
      ⟨10, Verdict.RED, "Too cold to be playable"⟩ :=
  golfability_cold rfl (of_decide_eq_true (by with_unfolding_all rfl)) (by norm_num)

/-! Helper lemmas about the pipeline. -/

/-- Taking the first five entries keeps the head. -/
theorem head?_take_five {α : Type _} (l : List α) : (l.take 5).head? = l.head? := by
  cases l <;> rfl

/-- The best-block reducer returns one of its two arguments. -/
theorem pickBetter_mem (a b : ForecastBlock) : pickBetter a b = a ∨ pickBetter a b = b := by
  unfold pickBetter
  split_ifs <;> simp

/-- The left fold of the best-block reducer lands in the candidate list. -/
theorem foldl_pickBetter_mem (t : List ForecastBlock) (a : ForecastBlock) :
    t.foldl pickBetter a ∈ a :: t := by
  induction t generalizing a with
  | nil => simp
  | cons x xs ih =>
    rw [List.foldl_cons]
    rcases List.mem_cons.mp (ih (pickBetter a x)) with h1 | h1
    · rcases pickBetter_mem a x with h2 | h2
      · rw [h1, h2]; exact List.mem_cons_self _ _
      · rw [h1, h2]; exact List.mem_cons_of_mem _ (List.mem_cons_self _ _)
    · exact List.mem_cons_of_mem _ (List.mem_cons_of_mem _ h1)

/-- `reduce` picks an element of the list it reduces. -/
theorem bestBy_mem {l : List ForecastBlock} {b : ForecastBlock} (h : bestBy l = some b) :
    b ∈ l := by
  cases l with
  | nil => simp [bestBy] at h
  | cons x xs =>
    simp only [bestBy, Option.some.injEq] at h
    rw [← h]
    exact foldl_pickBetter_mem xs x

/-- A daily summary carries the day key it was built for. -/
theorem mkDaily_dateKey (ctx : LocationCtx) (blocks : List ForecastBlock)
    (ground : GroundSignals) (tk k : ℤ) :
    (mkDaily ctx blocks ground tk k).dateKey = k := rfl

/-- The daily verdict field is the day verdict of the pool. -/
theorem mkDaily_verdict (ctx : LocationCtx) (blocks : List ForecastBlock)
    (ground : GroundSignals) (tk k : ℤ) :
    (mkDaily ctx blocks ground tk k).golf.verdict = dayVerdictOf blocks k := rfl

/-- The daily window field: suppressed on RED, else the reduced best tee
block's 3-hour window. -/
theorem mkDaily_bestWindow_eq (ctx : LocationCtx) (blocks : List ForecastBlock)
    (ground : GroundSignals) (tk k : ℤ) :
    (mkDaily ctx blocks ground tk k).bestWindow =
      if dayVerdictOf blocks k = Verdict.RED then none
      else (bestBy (teeBlocksOf ctx blocks k)).map windowOf := rfl

/-- A RED daily verdict forces the day's `bestWindow` to `null`. -/
theorem mkDaily_red_bestWindow {ctx : LocationCtx} {blocks : List ForecastBlock}
    {ground : GroundSignals} {tk k : ℤ}
    (h : (mkDaily ctx blocks ground tk k).golf.verdict = Verdict.RED) :
    (mkDaily ctx blocks ground tk k).bestWindow = none := by
  rw [mkDaily_verdict] at h
  rw [mkDaily_bestWindow_eq, if_pos h]

/-- A present daily `bestWindow` starts at a block that passed the
6 am–3 pm local-hour filter. -/
theorem mkDaily_window_hours {ctx : LocationCtx} {blocks : List ForecastBlock}
    {ground : GroundSignals} {tk k : ℤ} {w : TeeWindow}
    (h : (mkDaily ctx blocks ground tk k).bestWindow = some w) :
    6 ≤ localHour w.startDt ctx.tzOffsetSec ∧ localHour w.startDt ctx.tzOffsetSec ≤ 15 := by
  rw [mkDaily_bestWindow_eq] at h
  by_cases hv : dayVerdictOf blocks k = Verdict.RED
  · rw [if_pos hv] at h
    exact absurd h (by simp)
  · rw [if_neg hv] at h
    rcases Option.map_eq_some'.mp h with ⟨b, hb, rfl⟩
    have hp := List.of_mem_filter (bestBy_mem hb)
    have hp' : isInTeeWindow ctx b.dt = true := hp
    unfold isInTeeWindow at hp'
    simpa [windowOf] using of_decide_eq_true hp'

/-! Claim theorems about the pipeline. -/

/-- Claim C7: whenever the ground signal is computed from a
forecast-wetness proxy — `computeForecastGroundSignals`, or
`computeGroundSignals` with no measured 48 h history — the returned
`greensSpeed.confidence` is LOW, for every wetness value and block list. -/
theorem C7_proxy_confidence_low :
    (∀ (w : ℚ) (dayBlocks : List ForecastBlock),
        (computeForecastGroundSignals w dayBlocks).greensSpeed.confidence = Confidence.LOW) ∧
    (∀ (p24 : Option ℚ) (todayBlocks : List ForecastBlock),
        (computeGroundSignals p24 none todayBlocks).greensSpeed.confidence = Confidence.LOW) := by
  constructor
  · intro w dayBlocks
    simp only [computeForecastGroundSignals]
    split_ifs <;> rfl
  · intro p24 todayBlocks
    rfl

/-- Claim C10: neither ground-signal function ever emits HIGH confidence;
on every path both `greensSpeed.confidence` and
`fairwayRollout.confidence` are LOW or MEDIUM. -/
theorem C10_confidence_never_high :
    (∀ (p24 p48 : Option ℚ) (todayBlocks : List ForecastBlock),
        ((computeGroundSignals p24 p48 todayBlocks).greensSpeed.confidence = Confidence.LOW ∨
          (computeGroundSignals p24 p48 todayBlocks).greensSpeed.confidence = Confidence.MEDIUM) ∧
        ((computeGroundSignals p24 p48 todayBlocks).fairwayRollout.confidence = Confidence.LOW ∨
          (computeGroundSignals p24 p48 todayBlocks).fairwayRollout.confidence =
            Confidence.MEDIUM)) ∧
    (∀ (w : ℚ) (dayBlocks : List ForecastBlock),
        ((computeForecastGroundSignals w dayBlocks).greensSpeed.confidence = Confidence.LOW ∨
          (computeForecastGroundSignals w dayBlocks).greensSpeed.confidence =
            Confidence.MEDIUM) ∧
        ((computeForecastGroundSignals w dayBlocks).fairwayRollout.confidence = Confidence.LOW ∨
          (computeForecastGroundSignals w dayBlocks).fairwayRollout.confidence =
            Confidence.MEDIUM)) := by
  constructor
  · intro p24 p48 todayBlocks
    cases p48 with
    | none => exact ⟨Or.inl rfl, Or.inl rfl⟩
    | some p =>
      constructor
      · simp only [computeGroundSignals]
        split_ifs <;> simp
      · simp only [computeGroundSignals]
        split_ifs <;> simp
  · intro w dayBlocks
    constructor
    · simp only [computeForecastGroundSignals]
      split_ifs <;> simp
    · simp only [computeForecastGroundSignals]
      split_ifs <;> simp

/-- Claim C9: an empty forecast reading sequence still yields a response:
the daily list is empty and the today view (`golf`, `bestTime.bestBlock`,
`bestTime.bestWindow`) is null. Non-throwing is the totality of
`buildResponse`; every aggregate degrades to its empty default. -/
theorem C9_empty_forecast (ctx : LocationCtx) (p24 p48 : Option ℚ) :
    (buildResponse ctx [] p24 p48).daily = [] ∧
      (buildResponse ctx [] p24 p48).golf = none ∧
      (buildResponse ctx [] p24 p48).bestBlock = none ∧
      (buildResponse ctx [] p24 p48).bestWindow = none :=
  ⟨rfl, rfl, rfl, rfl⟩

/-- Claim C4: a daily entry whose aggregate verdict is RED has a null
`bestWindow`, whatever the individual block scores were. -/
theorem C4_red_day_suppresses_window (ctx : LocationCtx) (raw : List RawForecastItem)
    (p24 p48 : Option ℚ) (d : DailySummary)
    (hd : d ∈ (buildResponse ctx raw p24 p48).daily)
    (hred : d.golf.verdict = Verdict.RED) : d.bestWindow = none := by
  simp only [buildResponse] at hd
  rcases List.mem_map.mp hd with ⟨k, hk, rfl⟩
  exact mkDaily_red_bestWindow hred

/-- Witness for C4: a day holding two thunderstorm blocks around one
perfect block (score 100) averages 33, is RED, and gets no window. -/
theorem C4_red_day_suppresses_window_witness : stormyDaySummary.bestWindow = none :=
  C4_red_day_suppresses_window ctxLongDay [rawStormEarly, rawClearNoon, rawStormLate] none none
    stormyDaySummary
    (by
      have h : (buildResponse ctxLongDay [rawStormEarly, rawClearNoon, rawStormLate]
          none none).daily = [stormyDaySummary] := by with_unfolding_all rfl
      rw [h]
      exact List.mem_singleton_self _)
    (by with_unfolding_all rfl)

/-- Counterexample to claim C3 as stated: in the daily list the today
entry applies no sunset clamp. With sunset 17:00 (so
`latestStart = daylightEnd − 3h` is 13:00) and a perfect 14:00 block, the
today daily entry surfaces a window starting 14:00 — after `latestStart`.
Only the top-level `bestTime.bestWindow` applies the clamp. -/
theorem C3_counterexample :
    (buildResponse ctxShortDay [rawAfternoonClear] none none).daily.map
        (fun d => (d.dateKey, d.bestWindow)) =
      [(dayKeyOf ctxShortDay.nowSec ctxShortDay.tzOffsetSec,
        some ⟨50400, 61200, 100⟩)] ∧
      latestStartOf ctxShortDay < 50400 :=
  ⟨by with_unfolding_all rfl, of_decide_eq_true (by with_unfolding_all rfl)⟩

/-- Claim C3, amended: every present `bestWindow` in the daily list —
today's entry included — starts at a local hour in [6, 15], and no daily
entry applies the sunset clamp; the clamp `startDt ≤ daylightEnd − 3h`
holds (together with the hour bound) for the top-level
`bestTime.bestWindow`, which is the only window computed with it. -/
theorem C3_amended :
    (∀ (ctx : LocationCtx) (raw : List RawForecastItem) (p24 p48 : Option ℚ)
        (d : DailySummary) (w : TeeWindow),
        d ∈ (buildResponse ctx raw p24 p48).daily → d.bestWindow = some w →
        6 ≤ localHour w.startDt ctx.tzOffsetSec ∧
          localHour w.startDt ctx.tzOffsetSec ≤ 15) ∧
    (∀ (ctx : LocationCtx) (raw : List RawForecastItem) (p24 p48 : Option ℚ)
        (w : TeeWindow), (buildResponse ctx raw p24 p48).bestWindow = some w →
        (6 ≤ localHour w.startDt ctx.tzOffsetSec ∧
          localHour w.startDt ctx.tzOffsetSec ≤ 15) ∧
          w.startDt ≤ latestStartOf ctx) := by
  constructor
  · intro ctx raw p24 p48 d w hd hw
    simp only [buildResponse] at hd
    rcases List.mem_map.mp hd with ⟨k, hk, rfl⟩
    exact mkDaily_window_hours hw
  · intro ctx raw p24 p48 w hw
    simp only [buildResponse] at hw
    rcases Option.map_eq_some'.mp hw with ⟨b, hb, rfl⟩
    have hp := List.of_mem_filter (bestBy_mem hb)
    have hp' : (isInTeeWindow ctx b.dt && decide (b.dt ≤ latestStartOf ctx)) = true := hp
    rw [Bool.and_eq_true] at hp'
    obtain ⟨hp1, hp2⟩ := hp'
    unfold isInTeeWindow at hp1
    constructor
    · simpa [windowOf] using of_decide_eq_true hp1
    · simpa [windowOf] using of_decide_eq_true hp2

/-- Witness for the amended C3: the short-day daily window (start 14:00)
satisfies the hour bound, and the long-day top-level window (start 10:00)
satisfies both the hour bound and the sunset clamp. -/
theorem C3_amended_witness :
    (6 ≤ localHour (TeeWindow.mk 50400 61200 100).startDt ctxShortDay.tzOffsetSec ∧
      localHour (TeeWindow.mk 50400 61200 100).startDt ctxShortDay.tzOffsetSec ≤ 15) ∧
    ((6 ≤ localHour (TeeWindow.mk 36000 46800 100).startDt ctxLongDay.tzOffsetSec ∧
      localHour (TeeWindow.mk 36000 46800 100).startDt ctxLongDay.tzOffsetSec ≤ 15) ∧
      (TeeWindow.mk 36000 46800 100).startDt ≤ latestStartOf ctxLongDay) :=
  ⟨C3_amended.1 ctxShortDay [rawAfternoonClear] none none shortDaySummary ⟨50400, 61200, 100⟩
      (by
        have h : (buildResponse ctxShortDay [rawAfternoonClear] none none).daily =
            [shortDaySummary] := by with_unfolding_all rfl
        rw [h]
        exact List.mem_singleton_self _)
      (by with_unfolding_all rfl),
    C3_amended.2 ctxLongDay [rawMorningClear] none none ⟨36000, 46800, 100⟩
      (by with_unfolding_all rfl)⟩

/-- Folding the key-insertion step over a nondecreasing key list, starting
from a strictly increasing accumulator all of whose keys precede the list,
yields a strictly increasing key list. -/
theorem sorted_foldl_insertKey :
    ∀ (l acc : List ℤ), List.Sorted (· ≤ ·) l → List.Sorted (· < ·) acc →
      (∀ a ∈ acc, ∀ x ∈ l, a ≤ x) → List.Sorted (· < ·) (l.foldl insertKey acc)
  | [], acc, _, hacc, _ => hacc
  | x :: xs, acc, hl, hacc, hle => by
    rw [List.foldl_cons]
    have hxall : ∀ y ∈ xs, x ≤ y := (List.sorted_cons.mp hl).1
    apply sorted_foldl_insertKey xs (insertKey acc x) (List.sorted_cons.mp hl).2
    · unfold insertKey
      split_ifs with hmem
      · exact hacc
      · refine List.pairwise_append.mpr ⟨hacc, List.pairwise_singleton _ _, ?_⟩
        intro a ha y hy
        rcases List.mem_singleton.mp hy with rfl
        exact lt_of_le_of_ne (hle a ha y (List.mem_cons_self _ _))
          (fun h => hmem (h ▸ ha))
    · intro a ha y hy
      unfold insertKey at ha
      split_ifs at ha with hmem
      · exact hle a ha y (List.mem_cons_of_mem _ hy)
      · rcases List.mem_append.mp ha with h1 | h1
        · exact hle a h1 y (List.mem_cons_of_mem _ hy)
        · rcases List.mem_singleton.mp h1 with rfl
          exact hxall y hy

/-- The grouping loop never changes the head of a nonempty key list. -/
theorem head?_foldl_insertKey :
    ∀ (l acc : List ℤ), acc ≠ [] → (l.foldl insertKey acc).head? = acc.head?
  | [], _, _ => rfl
  | x :: xs, acc, hne => by
    rw [List.foldl_cons]
    have h1 : insertKey acc x ≠ [] := by
      unfold insertKey
      split_ifs
      · exact hne
      · simp
    rw [head?_foldl_insertKey xs _ h1]
    unfold insertKey
    split_ifs with hmem
    · rfl
    · cases acc with
      | nil => exact absurd rfl hne
      | cons a as => rfl

/-- Day keys in first-appearance order are strictly increasing when the
underlying key list is nondecreasing. -/
theorem sorted_dayKeysOf {l : List ℤ} (h : List.Sorted (· ≤ ·) l) :
    List.Sorted (· < ·) (dayKeysOf l) :=
  sorted_foldl_insertKey l [] h (List.sorted_nil) (by simp)

/-- Counterexample to claim C8 as stated: nothing forces the first daily
entry onto the local today. With the clock at the very start of local
day 0 and a forecast whose first block lies on local day 1, the first
(and only) daily entry's date key is day 1, not today's day 0. -/
theorem C8_counterexample :
    (buildResponse ctxDayZero [rawNextDay] none none).daily.map DailySummary.dateKey = [1] ∧
      dayKeyOf ctxDayZero.nowSec ctxDayZero.tzOffsetSec = 0 :=
  ⟨by with_unfolding_all rfl, by with_unfolding_all rfl⟩

/-- Claim C8, amended: the daily list has at most 5 entries; when the
input readings are chronological its date keys are strictly ascending;
and the first entry's date key is the local day key of the first forecast
block — which is today's key exactly when that block falls on the
location-local current day, but not in general (see the counterexample). -/
theorem C8_amended :
    (∀ (ctx : LocationCtx) (raw : List RawForecastItem) (p24 p48 : Option ℚ),
        (buildResponse ctx raw p24 p48).daily.length ≤ 5) ∧
    (∀ (ctx : LocationCtx) (raw : List RawForecastItem) (p24 p48 : Option ℚ),
        List.Sorted (· ≤ ·) (raw.map RawForecastItem.dt) →
        List.Sorted (· < ·)
          ((buildResponse ctx raw p24 p48).daily.map DailySummary.dateKey)) ∧
    (∀ (ctx : LocationCtx) (r : RawForecastItem) (rest : List RawForecastItem)
        (p24 p48 : Option ℚ),
        ((buildResponse ctx (r :: rest) p24 p48).daily.head?).map DailySummary.dateKey =
          some (dayKeyOf r.dt ctx.tzOffsetSec)) := by
  refine ⟨?_, ?_, ?_⟩
  · intro ctx raw p24 p48
    simp only [buildResponse, List.length_map]
    exact List.length_take_le _ _
  · intro ctx raw p24 p48 hs
    simp only [buildResponse, List.map_map]
    have hkeys : ∀ k, (DailySummary.dateKey ∘
        mkDaily ctx ((raw.take 40).map (mkBlock ctx))
          (computeGroundSignals p24 p48
            ((((raw.take 40).map (mkBlock ctx))).filter
              (fun b => decide (b.dayKey = dayKeyOf ctx.nowSec ctx.tzOffsetSec))))
          (dayKeyOf ctx.nowSec ctx.tzOffsetSec)) k = k := fun _ => rfl
    rw [List.map_congr_left (fun k _ => hkeys k), List.map_id']
    have hp : List.Pairwise (fun r1 r2 : RawForecastItem => r1.dt ≤ r2.dt) (raw.take 40) :=
      List.Pairwise.sublist (List.take_sublist 40 raw) (List.pairwise_map.mp hs)
    have hdk : List.Sorted (· ≤ ·)
        ((raw.take 40).map (ForecastBlock.dayKey ∘ mkBlock ctx)) :=
      List.pairwise_map.mpr (hp.imp fun hab =>
        Int.ediv_le_ediv (by omega) (Int.add_le_add_right hab ctx.tzOffsetSec))
    exact List.Pairwise.sublist (List.take_sublist _ _) (sorted_dayKeysOf hdk)
  · intro ctx r rest p24 p48
    simp only [buildResponse]
    have hkeys : dayKeysOf (List.map ForecastBlock.dayKey
          (((r :: rest).take 40).map (mkBlock ctx))) =
        List.foldl insertKey [dayKeyOf r.dt ctx.tzOffsetSec]
          (List.map ForecastBlock.dayKey ((rest.take 39).map (mkBlock ctx))) := rfl
    have hk : (List.take 5 (dayKeysOf (List.map ForecastBlock.dayKey
          (((r :: rest).take 40).map (mkBlock ctx))))).head? =
        some (dayKeyOf r.dt ctx.tzOffsetSec) := by
      rw [head?_take_five, hkeys, head?_foldl_insertKey _ _ (List.cons_ne_nil _ _)]
      rfl
    rw [List.head?_map, hk]
    rfl

/-- Witness for the amended C8 at a chronological two-day forecast: the
daily date keys come out strictly ascending. -/
theorem C8_amended_witness :
    List.Sorted (· ≤ ·) ([rawNextDay, rawDayAfter].map RawForecastItem.dt) ∧
      List.Sorted (· < ·)
        ((buildResponse ctxDayZero [rawNextDay, rawDayAfter] none none).daily.map
          DailySummary.dateKey) :=
  ⟨of_decide_eq_true (by with_unfolding_all rfl),
    C8_amended.2.1 ctxDayZero [rawNextDay, rawDayAfter] none none
      (of_decide_eq_true (by with_unfolding_all rfl))⟩

end CanIGolfToday
